import Mathlib

/-!
Shallow embedding of `tools/check.py` (workshop index.html header validator).

Python values that the YAML decoder can hand to a checker are modelled by
`Value` (string, integer, date, list of strings, None).  Checkers are modelled
as functions `Value → Except PyErr Bool`: `.ok b` models an ordinary boolean
return, `.error e` models an uncaught Python exception of class `e`.

Python builtins used by the source are modelled explicitly on `List Char`:
`str.split(sep)` as `splitOnChar`, `str.lstrip`/`rstrip`/`strip` as
`stripLeft`/`stripRight`, `int(s)` as `pyIntOk`, `float(s)` as `pyFloatOk`,
and each `re.match` call as an explicit nondeterministic prefix matcher
(`RE := List Char → List (List Char)`, returning the possible remainders;
a match exists iff the result list is nonempty, which is exactly what
`bool(re.match(...))` observes since the patterns are unanchored).

Deliberate modelling notes (none affects any claim below):
- Python `str.strip` also strips Unicode whitespace and `int`/`float` accept
  Unicode digits and PEP-515 underscores; the model covers the ASCII forms.
- `re` classes `\d` and `[^@]` are modelled over ASCII characters likewise.
- Python dict iteration order over HANDLERS is modelled by source order; the
  accumulated validity is order-independent.
-/

/-- Python exception classes that the checkers can raise. -/
inductive PyErr where
  | valueError
  | indexError
  | attributeError
  | typeError
deriving DecidableEq

/-- A decoded YAML value as produced for a header field. -/
inductive Value where
  | str (s : String)
  | int (n : Int)
  | date (y m d : Nat)
  | list (xs : List String)
  | none
deriving DecidableEq

/-- Result of calling a checker: normal boolean return or an uncaught exception. -/
abbrev CheckResult := Except PyErr Bool

/-- Python truthiness of a decoded value (`bool(v)`). -/
def truthy : Value → Bool
  | .str s => !(s = "")
  | .int n => !(n = 0)
  | .date _ _ _ => true
  | .list xs => !xs.isEmpty
  | .none => false

/-- Zero-pad a Nat to two digits, as in `datetime.date.isoformat`. -/
def pad2 (n : Nat) : String :=
  if n < 10 then "0" ++ toString n else toString n

/-- Zero-pad a Nat to four digits, as in `datetime.date.isoformat`. -/
def pad4 (n : Nat) : String :=
  if n < 10 then "000" ++ toString n
  else if n < 100 then "00" ++ toString n
  else if n < 1000 then "0" ++ toString n
  else toString n

/-- Python `str(v)` for the modelled values. -/
def pyStr : Value → String
  | .str s => s
  | .int n => toString n
  | .date y m d => pad4 y ++ "-" ++ pad2 m ++ "-" ++ pad2 d
  | .list xs => "[" ++ String.intercalate ", " (xs.map fun x => "\x27" ++ x ++ "\x27") ++ "]"
  | .none => "None"

/-- ASCII whitespace as stripped by Python `str.strip` and friends. -/
def pyIsSpace (c : Char) : Bool :=
  (c = ' ') || (c = '\t') || (c = '\n') || (c = '\x0d') || (c = '\x0b') || (c = '\x0c')

/-- Python `str.lstrip()` on a character list. -/
def stripLeft (cs : List Char) : List Char := cs.dropWhile pyIsSpace

/-- Python `str.rstrip()` on a character list. -/
def stripRight (cs : List Char) : List Char := (cs.reverse.dropWhile pyIsSpace).reverse

/-- Python `str.split(sep)` for a one-character separator. -/
def splitOnChar (sep : Char) : List Char → List (List Char)
  | [] => [[]]
  | c :: cs =>
    if c = sep then [] :: splitOnChar sep cs
    else
      match splitOnChar sep cs with
      | [] => [[c]]
      | h :: t => (c :: h) :: t

/-- Drop one optional leading sign, as the Python numeric parsers do. -/
def dropSign : List Char → List Char
  | [] => []
  | c :: r => if c = '+' || c = '-' then r else c :: r

/-- Python `int(s)` succeeds: optional surrounding whitespace, optional sign, then digits. -/
def pyIntOk (cs : List Char) : Bool :=
  let t := dropSign (stripRight (stripLeft cs))
  decide (t ≠ []) && t.all Char.isDigit

/-- Exponent suffix of a Python float literal (empty, or `e`/`E`, sign, digits). -/
def expOk : List Char → Bool
  | [] => true
  | e :: r =>
    (e = 'e' || e = 'E') &&
      (let r2 := dropSign r
       decide (r2 ≠ []) && r2.all Char.isDigit)

/-- Mantissa (plus optional exponent) of a Python float literal. -/
def mantOk (cs : List Char) : Bool :=
  let d1 := cs.takeWhile Char.isDigit
  let r1 := cs.dropWhile Char.isDigit
  match r1 with
  | '.' :: r2 =>
    let d2 := r2.takeWhile Char.isDigit
    let r3 := r2.dropWhile Char.isDigit
    (decide (d1 ≠ []) || decide (d2 ≠ [])) && expOk r3
  | _ => decide (d1 ≠ []) && expOk r1

/-- Python `float(s)` succeeds. -/
def pyFloatOk (cs : List Char) : Bool :=
  let t := dropSign (stripRight (stripLeft cs))
  let low := t.map Char.toLower
  if low = "inf".data || low = "infinity".data || low = "nan".data then true
  else mantOk t

/-- A nondeterministic prefix matcher: the possible remainders after a match. -/
abbrev RE := List Char → List (List Char)

/-- Regex literal character. -/
def reCh (a : Char) : RE := fun l =>
  match l with
  | c :: cs => if c = a then [cs] else []
  | [] => []

/-- Regex class `\d`. -/
def reDigit : RE := fun l =>
  match l with
  | c :: cs => if c.isDigit then [cs] else []
  | [] => []

/-- Regex character range such as `[0-5]`. -/
def reRange (lo hi : Char) : RE := fun l =>
  match l with
  | c :: cs => if lo ≤ c ∧ c ≤ hi then [cs] else []
  | [] => []

/-- Regex concatenation. -/
def reSeq (p q : RE) : RE := fun l => (p l).flatMap q

/-- Regex alternation. -/
def reAlt (p q : RE) : RE := fun l => p l ++ q l

/-- Regex `C+` for a character class given by a predicate. -/
def rePlus (pr : Char → Bool) : List Char → List (List Char)
  | [] => []
  | c :: cs => if pr c then cs :: rePlus pr cs else []

/-- Regex fragment `0?\d` of HUMANTIME_PATTERN. -/
def re0d : RE := reAlt reDigit (reSeq (reCh '0') reDigit)

/-- Regex fragment `(0?\d|1[0-1])` (a 12-hour hour). -/
def reHr12 : RE := reAlt re0d (reSeq (reCh '1') (reRange '0' '1'))

/-- Regex fragment `[0-5]\d` (minutes). -/
def reMin : RE := reSeq (reRange '0' '5') reDigit

/-- Regex fragment `(am|pm)`. -/
def reAmPm : RE := reAlt (reSeq (reCh 'a') (reCh 'm')) (reSeq (reCh 'p') (reCh 'm'))

/-- Regex fragment `(-|to)`. -/
def reToDash : RE := reAlt (reCh '-') (reSeq (reCh 't') (reCh 'o'))

/-- Regex fragment `(0?\d|1\d|2[0-3])` (a 24-hour hour). -/
def reHr24 : RE := reAlt (reAlt re0d (reSeq (reCh '1') reDigit)) (reSeq (reCh '2') (reRange '0' '3'))

/-- The 12-hour branch of HUMANTIME_PATTERN. -/
def ht12 : RE :=
  reSeq reHr12 (reSeq (reCh ':') (reSeq reMin (reSeq reAmPm (reSeq reToDash
    (reSeq reHr12 (reSeq (reCh ':') (reSeq reMin reAmPm)))))))

/-- The 24-hour branch of HUMANTIME_PATTERN. -/
def ht24 : RE :=
  reSeq reHr24 (reSeq (reCh ':') (reSeq reMin (reSeq reToDash
    (reSeq reHr24 (reSeq (reCh ':') reMin)))))

/-- Whether `re.match(HUMANTIME_PATTERN, s)` is truthy. -/
def htMatch (l : List Char) : Bool := !(ht12 l).isEmpty || !(ht24 l).isEmpty

/-- The matcher of EMAIL_PATTERN, i.e. of a one-or-more run of non-at characters,
an at sign, another such run, a dot, and a final such run. -/
def emailRe : RE :=
  reSeq (rePlus fun c => !(c = '@'))
    (reSeq (reCh '@')
      (reSeq (rePlus fun c => !(c = '@'))
        (reSeq (reCh '.') (rePlus fun c => !(c = '@')))))

/-- Whether `re.match(EMAIL_PATTERN, s)` is truthy. -/
def emailMatch (l : List Char) : Bool := !(emailRe l).isEmpty

/-- Whether `re.match(URL_PATTERN, s)` is truthy: `https?://` then at least one
non-newline character. -/
def urlMatch : List Char → Bool
  | 'h' :: 't' :: 't' :: 'p' :: rest =>
    match rest with
    | ':' :: '/' :: '/' :: c :: _ => !(c = '\n')
    | 's' :: ':' :: '/' :: '/' :: c :: _ => !(c = '\n')
    | _ => false
  | _ => false

/-- Whether `re.match(EVENTBRITE_PATTERN, s)` is truthy: `\d{9,10}` unanchored,
so exactly when the string has at least nine leading decimal digits. -/
def ebMatch (l : List Char) : Bool := decide (9 ≤ l.length) && (l.take 9).all Char.isDigit

/-- Python `s.replace(" ", "")`. -/
def removeSpaces (l : List Char) : List Char := l.filter fun c => !(c = ' ')

/-- Condition tested by the look_for_fixme decorator:
`arg.lstrip().startswith("FIXME")`. -/
def starts_fixme (s : String) : Bool := "FIXME".data.isPrefixOf (stripLeft s.data)

/-- Decorator `look_for_fixme`: a string value whose left-stripped content starts
with FIXME is invalid without evaluating the wrapped checker. -/
def look_for_fixme (func : Value → CheckResult) : Value → CheckResult := fun arg =>
  match arg with
  | .str s => if starts_fixme s then .ok false else func arg
  | _ => func arg

/-- Checker `check_layout`: layout equals "workshop". -/
def check_layout : Value → CheckResult :=
  look_for_fixme fun layout => .ok (layout == Value.str "workshop")

/-- Checker `check_root`: root can only be ".". -/
def check_root : Value → CheckResult :=
  look_for_fixme fun root => .ok (root == Value.str ".")

/-- Checker `check_country`: not None and contains no space; the Python
membership test `" " in country` raises TypeError on non-iterable values. -/
def check_country : Value → CheckResult :=
  look_for_fixme fun country =>
    match country with
    | .none => .ok false
    | .str s => .ok (!(s.data.contains ' '))
    | .list xs => .ok (!(xs.contains " "))
    | .int _ => .error .typeError
    | .date _ _ _ => .error .typeError

/-- Body of `check_humandate` on a string: needs a comma, tuple-unpacks the
split (ValueError on more than one comma), rejects a space among the first
three characters, indexes character 3 (IndexError on short month segments),
requires it to be a space, then tries `int(year)` with a bare except. -/
def humandateStr (cs : List Char) : CheckResult :=
  if !(cs.contains ',') then .ok false
  else
    match splitOnChar ',' cs with
    | [month_dates, year] =>
      if (month_dates.take 3).any (fun c => c = ' ') then .ok false
      else
        match month_dates.get? 3 with
        | Option.none => .error .indexError
        | Option.some c4 => if !(c4 = ' ') then .ok false else .ok (pyIntOk year)
    | _ => .error .valueError

/-- Checker `check_humandate`; on non-strings the test `"," not in date` raises
TypeError except on lists, where a list containing "," reaches `.split` and
raises AttributeError. -/
def check_humandate : Value → CheckResult :=
  look_for_fixme fun date =>
    match date with
    | .str s => humandateStr s.data
    | .list xs => if xs.contains "," then .error .attributeError else .ok false
    | _ => .error .typeError

/-- Checker `check_humantime`: `re.match(HUMANTIME_PATTERN, time.replace(" ",""))`;
non-strings have no `.replace` and raise AttributeError. -/
def check_humantime : Value → CheckResult :=
  look_for_fixme fun time =>
    match time with
    | .str s => .ok (htMatch (removeSpaces s.data))
    | _ => .error .attributeError

/-- Checker `check_date` (undecorated): `isinstance(this_date, date)`. -/
def check_date : Value → CheckResult := fun this_date =>
  match this_date with
  | .date _ _ _ => .ok true
  | _ => .ok false

/-- Checker `check_latitude_longitude`: split on comma, tuple-unpack into two
parts and parse both as floats, catching only ValueError; non-strings have no
`.split` and raise AttributeError. -/
def check_latitude_longitude : Value → CheckResult :=
  look_for_fixme fun latlng =>
    match latlng with
    | .str s =>
      match splitOnChar ',' s.data with
      | [lat, lng] => .ok (pyFloatOk lat && pyFloatOk lng)
      | _ => .ok false
    | _ => .error .attributeError

/-- Checker `check_instructors` (undecorated): a list with at least one element. -/
def check_instructors : Value → CheckResult := fun instructors =>
  match instructors with
  | .list xs => .ok (decide (0 < xs.length))
  | _ => .ok false

/-- Checker `check_helpers` (undecorated): a list (possibly empty). -/
def check_helpers : Value → CheckResult := fun helpers =>
  match helpers with
  | .list _ => .ok true
  | _ => .ok false

/-- The placeholder address rejected by `check_email`. -/
def DEFAULT_CONTACT_EMAIL : String := "admin@software-carpentry.org"

/-- Checker `check_email`: EMAIL_PATTERN matches and the address is not the
default placeholder; `re.match` raises TypeError on non-string values. -/
def check_email : Value → CheckResult :=
  look_for_fixme fun email =>
    match email with
    | .str s => .ok (emailMatch s.data && !(s = DEFAULT_CONTACT_EMAIL))
    | _ => .error .typeError

/-- Checker `check_eventbrite`: coerce non-strings with `str(...)`, then match
EVENTBRITE_PATTERN. -/
def check_eventbrite : Value → CheckResult :=
  look_for_fixme fun eventbrite => .ok (ebMatch (pyStr eventbrite).data)

/-- Checker `check_etherpad`: URL_PATTERN matches; `re.match` raises TypeError
on non-string values. -/
def check_etherpad : Value → CheckResult :=
  look_for_fixme fun etherpad =>
    match etherpad with
    | .str s => .ok (urlMatch s.data)
    | _ => .error .typeError

/-- Checker `check_pass`: the body always passes; note that the source does
decorate it with look_for_fixme. -/
def check_pass : Value → CheckResult :=
  look_for_fixme fun _ => .ok true

/-- One entry of the HANDLERS table: field name, required flag, checker,
error message. -/
abbrev Entry := String × Bool × (Value → CheckResult) × String

/-- The HANDLERS rule table, in source listing order. -/
def HANDLERS : List Entry := [
  ("layout", true, check_layout, "layout isn\x27t \"workshop\"."),
  ("root", true, check_root, "root can only be \".\"."),
  ("country", true, check_country, "country invalid. Please check whether there are spaces inside the country-name."),
  ("humandate", true, check_humandate, "humandate invalid. Please use three-letter months like \"Jan\" and four-letter years like \"2025\"."),
  ("humantime", true, check_humantime, "humantime doesn\x27t include numbers."),
  ("startdate", true, check_date, "startdate invalid. Must be of format year-month-day, i.e., 2014-01-31."),
  ("enddate", false, check_date, "enddate invalid. Must be of format year-month-day, i.e., 2014-01-31."),
  ("latlng", true, check_latitude_longitude, "latlng invalid. Check that it is two floating point numbers, separated by a comma."),
  ("instructor", true, check_instructors, "instructor list isn\x27t a valid list of format [\"First instructor\", \"Second instructor\",..]."),
  ("helper", true, check_helpers, "helper list isn\x27t a valid list of format [\"First helper\", \"Second helper\",..]."),
  ("contact", true, check_email, "contact email invalid or still set to \"admin@software-carpentry.org\"."),
  ("eventbrite", false, check_eventbrite, "Eventbrite key appears invalid."),
  ("etherpad", false, check_etherpad, "Etherpad URL appears invalid."),
  ("venue", false, check_pass, "venue name not specified"),
  ("address", false, check_pass, "address not specified")]

/-- REQUIRED: the names of the required categories (Python builds a set; only
membership is ever used, so a duplicate-free list is an equivalent model). -/
def REQUIRED : List String := (HANDLERS.filter fun e => e.2.1).map fun e => e.1

/-- OPTIONAL: the names of the optional categories. -/
def OPTIONAL : List String := (HANDLERS.filter fun e => !e.2.1).map fun e => e.1

/-- `check_validity`: runs a checker on a value (the stderr diagnostics it
writes are not modelled; its return value is the checker result). -/
def check_validity (data : Value) (func : Value → CheckResult) : CheckResult :=
  func data

/-- `check_categories(left, right, message)`: true iff the set difference
left - right is empty. -/
def check_categories (left right : List String) : Bool :=
  (left.filter fun c => !(right.contains c)).isEmpty

/-- `check_double_categories(seen_categories, message)`: true iff no category
occurs more than once in the seen list. -/
def check_double_categories (seen : List String) : Bool :=
  (seen.filter fun c => decide (1 < seen.count c)).isEmpty

/-- The body of the per-category loop of `check_file`: if the category is
present and required-or-truthy, run its checker; if absent and required,
contribute False; otherwise contribute True (skipped silently). -/
def field_check (hd : List (String × Value)) (e : Entry) : CheckResult :=
  match hd.lookup e.1 with
  | Option.some v => if e.2.1 || truthy v then check_validity v e.2.2.1 else .ok true
  | Option.none => if e.2.1 then .ok false else .ok true

/-- The per-category loop of `check_file`, folding `is_valid &= ...` over the
entries; an uncaught checker exception aborts the loop. -/
def check_fields_from (hd : List (String × Value)) : List Entry → Bool → CheckResult
  | [], acc => .ok acc
  | e :: rest, acc =>
    match field_check hd e with
    | .error er => .error er
    | .ok b => check_fields_from hd rest (acc && b)

/-- The whole per-category phase of `check_file` over the HANDLERS table. -/
def checkFields (hd : List (String × Value)) : CheckResult :=
  check_fields_from hd HANDLERS true

/-- Observable outcome of `check_file`: a deliberate `sys.exit`, a returned
validity boolean, or an uncaught Python exception. -/
inductive Outcome where
  | fatalExit (code : Nat)
  | result (valid : Bool)
  | exn (e : PyErr)
deriving DecidableEq

/-- `check_file` after header extraction: `header_data` models the result of
`yaml.load` (None, or a mapping as an association list); a falsy result
(None or empty mapping) is fatal, `sys.exit(1)`.  Otherwise the per-category
loop and the three structural checks are all ANDed into the result. -/
def check_file_core (header_data : Option (List (String × Value))) (seen : List String) : Outcome :=
  match header_data with
  | Option.none => .fatalExit 1
  | Option.some hd =>
    if hd.isEmpty then .fatalExit 1
    else
      match checkFields hd with
      | .error e => .exn e
      | .ok fieldsOk =>
        .result (((fieldsOk && check_double_categories seen) && check_categories REQUIRED seen)
          && check_categories seen (REQUIRED ++ OPTIONAL))

/-- The seen-category name extracted from a raw header line:
`line.split(":")[0].strip()`. -/
def catOf (s : String) : String :=
  String.mk (stripRight (stripLeft ((splitOnChar ':' s.data).headD [])))

/-- Python `str.rstrip()` on a String. -/
def pyRStrip (s : String) : String := String.mk (stripRight s.data)

/-- Python `str.strip()` on a String. -/
def pyStrip (s : String) : String := String.mk (stripRight (stripLeft s.data))

/-- The template sentinel phrase that stops header scanning with a warning. -/
def TEMPLATE_SENTINEL : String := "This page is a template for workshop home pages."

/-- Python `line.startswith("#")`: the first character is a hash. -/
def startsHash (s : String) : Bool :=
  match s.data with
  | c :: _ => c = '#'
  | [] => false

/-- Python substring containment `pat in l` for character lists. -/
def isSubstring (pat : List Char) : List Char → Bool
  | [] => pat.isEmpty
  | c :: cs => pat.isPrefixOf (c :: cs) || isSubstring pat cs

/-- The scanning loop of `get_header`: returns the buffered header lines, the
seen category names, and whether the template warning fired.  A line that
rstrips to "---" bumps the counter and is skipped; otherwise, while the counter
differs from 2, non-comment lines are buffered and contribute a category name;
a line containing the sentinel then breaks the loop. -/
def get_header_aux : Nat → List String → List String × List String × Bool
  | _, [] => ([], [], false)
  | counter, line :: rest =>
    let l := pyRStrip line
    if l = "---" then get_header_aux (counter + 1) rest
    else
      let tail := if isSubstring TEMPLATE_SENTINEL.data l.data then ([], [], true)
        else get_header_aux counter rest
      if counter ≠ 2 ∧ ¬(startsHash l = true) then
        (l :: tail.1, catOf l :: tail.2.1, tail.2.2)
      else tail

/-- `get_header` over a materialized line sequence (the final `yaml.load` of
the joined buffer is applied by `check_file`). -/
def get_header (lines : List String) : List String × List String × Bool :=
  get_header_aux 0 lines

/-- `check_file` end to end, parameterized by the YAML decoder applied to the
joined header buffer. -/
def check_file (yload : String → Option (List (String × Value))) (lines : List String) : Outcome :=
  let r := get_header lines
  check_file_core (yload (String.intercalate "\n" r.1)) r.2.1

/-- A fully valid header mapping used as a concrete witness input. -/
def hdV : List (String × Value) := [
  ("layout", Value.str "workshop"),
  ("root", Value.str "."),
  ("country", Value.str "Italy"),
  ("humandate", Value.str "Feb 18-20, 2525"),
  ("humantime", Value.str "1:30pm-4:00pm"),
  ("startdate", Value.date 2015 1 29),
  ("latlng", Value.str "12.34,56.78"),
  ("instructor", Value.list ["A"]),
  ("helper", Value.list []),
  ("contact", Value.str "a@b.com")]

/-- The seen category names matching `hdV`. -/
def seenV : List String :=
  ["layout", "root", "country", "humandate", "humantime", "startdate",
   "latlng", "instructor", "helper", "contact"]

/-! ## Helper lemmas -/

theorem splitOnChar_of_not_mem {sep : Char} : ∀ {cs : List Char},
    sep ∉ cs → splitOnChar sep cs = [cs] := by
  intro cs
  induction cs with
  | nil => intro _; rfl
  | cons c cs ih =>
    intro h
    rw [List.mem_cons, not_or] at h
    obtain ⟨hc, hcs⟩ := h
    rw [splitOnChar, if_neg (fun e => hc e.symm), ih hcs]

theorem splitOnChar_length_two_mem {sep : Char} {cs : List Char}
    (h : (splitOnChar sep cs).length = 2) : sep ∈ cs := by
  by_contra hm
  rw [splitOnChar_of_not_mem hm] at h
  simp at h

theorem check_categories_iff (left right : List String) :
    check_categories left right = true ↔ ∀ c ∈ left, c ∈ right := by
  unfold check_categories
  rw [List.isEmpty_iff, List.filter_eq_nil_iff]
  constructor
  · intro h c hc
    have := h c hc
    simpa [List.elem_iff] using this
  · intro h c hc
    simpa [List.elem_iff] using h c hc

theorem check_double_categories_iff (seen : List String) :
    check_double_categories seen = true ↔ ∀ c ∈ seen, seen.count c ≤ 1 := by
  unfold check_double_categories
  rw [List.isEmpty_iff, List.filter_eq_nil_iff]
  constructor
  · intro h c hc
    have := h c hc
    simpa using this
  · intro h c hc
    simpa using h c hc

theorem check_fields_from_ok_true (hd : List (String × Value)) : ∀ (l : List Entry) (acc : Bool),
    check_fields_from hd l acc = .ok true ↔ (acc = true ∧ ∀ e ∈ l, field_check hd e = .ok true) := by
  intro l
  induction l with
  | nil =>
    intro acc
    constructor
    · intro h
      refine ⟨?_, by simp⟩
      simpa [check_fields_from] using h
    · intro ⟨h, _⟩
      simp [check_fields_from, h]
  | cons e rest ih =>
    intro acc
    rw [check_fields_from]
    constructor
    · intro h
      match he : field_check hd e with
      | .error er => rw [he] at h; exact absurd h (by simp)
      | .ok b =>
        rw [he] at h
        obtain ⟨hacc, hrest⟩ := (ih (acc && b)).mp h
        rw [Bool.and_eq_true] at hacc
        refine ⟨hacc.1, ?_⟩
        intro f hf
        rcases List.mem_cons.mp hf with rfl | hf
        · rw [he, hacc.2]
        · exact hrest f hf
    · intro ⟨hacc, hall⟩
      have he := hall e (List.mem_cons_self e rest)
      rw [he]
      exact (ih (acc && true)).mpr ⟨by simp [hacc], fun f hf => hall f (List.mem_cons_of_mem e hf)⟩

theorem check_file_core_result {hd : List (String × Value)} {seen : List String} {v : Bool}
    (h : check_file_core (Option.some hd) seen = .result v) :
    ∃ f, checkFields hd = .ok f ∧
      v = (((f && check_double_categories seen) && check_categories REQUIRED seen)
        && check_categories seen (REQUIRED ++ OPTIONAL)) := by
  simp only [check_file_core] at h
  by_cases he : hd.isEmpty
  · rw [if_pos he] at h; exact absurd h (by simp)
  · rw [if_neg he] at h
    match hf : checkFields hd with
    | .error er => rw [hf] at h; exact absurd h (by simp)
    | .ok f =>
      rw [hf] at h
      refine ⟨f, rfl, ?_⟩
      cases h
      rfl

theorem digit_not_space {c : Char} (h : c.isDigit = true) : pyIsSpace c = false := by
  by_contra hb
  rw [Bool.not_eq_false] at hb
  unfold pyIsSpace at hb
  simp only [Bool.or_eq_true, decide_eq_true_eq] at hb
  rcases hb with ((((h1 | h1) | h1) | h1) | h1) | h1 <;> subst h1 <;>
    exact absurd h (by decide)

theorem fixme_not_ebMatch {s : String} (h : starts_fixme s = true) : ebMatch s.data = false := by
  cases heb : ebMatch s.data
  · rfl
  · exfalso
    unfold ebMatch at heb
    rw [Bool.and_eq_true, decide_eq_true_eq] at heb
    obtain ⟨hlen, hall⟩ := heb
    cases hs : s.data with
    | nil => rw [hs] at hlen; simp at hlen
    | cons c rest =>
      rw [hs, List.take_succ_cons, List.all_cons, Bool.and_eq_true] at hall
      have hdig : c.isDigit = true := hall.1
      unfold starts_fixme stripLeft at h
      rw [hs, List.dropWhile_cons, if_neg (by rw [digit_not_space hdig]; simp)] at h
      rw [show "FIXME".data = ['F', 'I', 'X', 'M', 'E'] from rfl] at h
      simp only [List.isPrefixOf, Bool.and_eq_true, beq_iff_eq] at h
      have : c = 'F' := h.1.symm
      subst this
      exact absurd hdig (by decide)

/-! ## Claim theorems -/

/-- Claim C1 (corrected): the claim exempts check_pass from the FIXME wrapper,
but the source decorates check_pass with look_for_fixme too.  Amended form:
every checker decorated with look_for_fixme — the nine rule checkers AND
check_pass — returns invalid on a string whose left-stripped content starts
with FIXME; only check_instructors, check_helpers and check_date are
undecorated. -/
theorem claim_C1 : ∀ s : String, starts_fixme s = true →
    check_layout (Value.str s) = .ok false ∧
    check_root (Value.str s) = .ok false ∧
    check_country (Value.str s) = .ok false ∧
    check_humandate (Value.str s) = .ok false ∧
    check_humantime (Value.str s) = .ok false ∧
    check_latitude_longitude (Value.str s) = .ok false ∧
    check_email (Value.str s) = .ok false ∧
    check_eventbrite (Value.str s) = .ok false ∧
    check_etherpad (Value.str s) = .ok false ∧
    check_pass (Value.str s) = .ok false := by
  intro s h
  refine ⟨?_, ?_, ?_, ?_, ?_, ?_, ?_, ?_, ?_, ?_⟩ <;>
    simp [check_layout, check_root, check_country, check_humandate, check_humantime,
      check_latitude_longitude, check_email, check_eventbrite, check_etherpad, check_pass,
      look_for_fixme, h]

/-- Claim C1 counterexample: check_pass is NOT exempt from the FIXME wrapper;
on the string "FIXME" it returns invalid, while the claim (pass-through,
always valid) would require it to return valid. -/
theorem claim_C1_counterexample : check_pass (Value.str "FIXME") = .ok false := rfl

/-- Claim C1 witness: the amended theorem applied at the concrete string
"FIXME 2014". -/
theorem claim_C1_witness :
    check_layout (Value.str "FIXME 2014") = .ok false ∧
    check_pass (Value.str "FIXME 2014") = .ok false :=
  ⟨(claim_C1 "FIXME 2014" (by decide)).1,
   (claim_C1 "FIXME 2014" (by decide)).2.2.2.2.2.2.2.2.2⟩

/-- Claim C4 (confirmed): a falsy decode result (None or an empty mapping) makes
check_file exit fatally with status 1 before any per-field or structural check,
and no other input to check_file produces that fatal exit. -/
theorem claim_C4 :
    (∀ seen, check_file_core Option.none seen = Outcome.fatalExit 1) ∧
    (∀ hd seen, hd.isEmpty = true → check_file_core (Option.some hd) seen = Outcome.fatalExit 1) ∧
    (∀ hd seen c, hd.isEmpty = false → check_file_core (Option.some hd) seen ≠ Outcome.fatalExit c) := by
  refine ⟨fun seen => rfl, ?_, ?_⟩
  · intro hd seen h
    simp only [check_file_core]
    rw [if_pos h]
  · intro hd seen c h hcon
    simp only [check_file_core] at hcon
    rw [if_neg (by simp [h])] at hcon
    match hf : checkFields hd with
    | .error er => rw [hf] at hcon; cases hcon
    | .ok f => rw [hf] at hcon; cases hcon

/-- Claim C4 witness: the theorem applied to an empty mapping and to the valid
concrete header. -/
theorem claim_C4_witness :
    check_file_core (Option.some []) [] = Outcome.fatalExit 1 ∧
    check_file_core (Option.some hdV) seenV ≠ Outcome.fatalExit 1 :=
  ⟨claim_C4.2.1 [] [] rfl, claim_C4.2.2 hdV seenV 1 rfl⟩

/-- Claim C5 (code_bug): the scanner does NOT stop for good at the second
"---"; its counter merely disables collection while equal to 2, so a third
"---" line re-enables collection.  On the failing input below, the line
"b: 2" after the second delimiter is added to the header buffer and its
category name "b" to the seen sequence, contradicting the claim and the
source comment that the header stops at the second "---". -/
theorem claim_C5 :
    get_header ["---", "a: 1", "---", "---", "b: 2"] = (["a: 1", "b: 2"], ["a", "b"], false) := by
  decide

/-- Claim C8 (corrected): the 9-10 digit pattern is matched by `re.match`
without an anchor, so check_eventbrite returns true exactly when the coerced
string has at least nine leading decimal digits; a string need not consist of
9 or 10 digits (trailing characters, or an eleventh digit, are accepted). -/
theorem claim_C8 :
    (∀ v : Value, check_eventbrite v = .ok (ebMatch (pyStr v).data)) ∧
    check_eventbrite (Value.int 123456789) = .ok true ∧
    check_eventbrite (Value.str "12") = .ok false := by
  refine ⟨?_, rfl, rfl⟩
  intro v
  match v with
  | .int n => rfl
  | .date y m d => rfl
  | .list xs => rfl
  | .none => rfl
  | .str s =>
    simp only [check_eventbrite, look_for_fixme]
    by_cases h : starts_fixme s = true
    · rw [if_pos h, show pyStr (Value.str s) = s from rfl, fixme_not_ebMatch h]
    · rw [if_neg h]

/-- Claim C8 counterexample: an eleven-digit string is accepted by
check_eventbrite although it does not consist of 9 or 10 decimal digits. -/
theorem claim_C8_counterexample :
    check_eventbrite (Value.str "12345678901") = .ok true ∧
    ¬("12345678901".length = 9 ∨ "12345678901".length = 10) := by
  exact ⟨rfl, by decide⟩

/-- Claim C9 (confirmed): in the header region every non-comment line is
recorded as the stripped text before its first colon, a colon-free line
contributes its whole stripped text, a blank line contributes the empty
string, and a seen sequence holding the empty string twice fails the
duplicate-categories check and forces any returned overall validity to
false. -/
theorem claim_C9 :
    (∀ (c : Nat) (line : String) (rest : List String), c ≠ 2 →
      pyRStrip line ≠ "---" →
      isSubstring TEMPLATE_SENTINEL.data (pyRStrip line).data = false →
      startsHash (pyRStrip line) = false →
      get_header_aux c (line :: rest) =
        ((pyRStrip line) :: (get_header_aux c rest).1,
         catOf (pyRStrip line) :: (get_header_aux c rest).2.1,
         (get_header_aux c rest).2.2)) ∧
    (catOf "" = "") ∧
    (∀ s : String, ':' ∉ s.data → catOf s = pyStrip s) ∧
    (∀ seen : List String, 2 ≤ seen.count "" → check_double_categories seen = false) ∧
    (∀ hd seen v, 2 ≤ seen.count "" → check_file_core hd seen = Outcome.result v → v = false) := by
  refine ⟨?_, rfl, ?_, ?_, ?_⟩
  · intro c line rest h1 h2 h3 h4
    simp only [get_header_aux]
    rw [if_neg h2, if_pos (show c ≠ 2 ∧ ¬startsHash (pyRStrip line) = true from ⟨h1, by simp [h4]⟩)]
    simp [h3]
  · intro s h
    unfold catOf pyStrip
    rw [splitOnChar_of_not_mem h]
    rfl
  · intro seen h
    cases hcd : check_double_categories seen
    · rfl
    · exfalso
      have hmem : ("" : String) ∈ seen := by
        rw [← List.count_pos_iff]
        omega
      have := (check_double_categories_iff seen).mp hcd "" hmem
      omega
  · intro hd seen v h hres
    match hd with
    | Option.none => cases hres
    | Option.some hd =>
      obtain ⟨f, _, hv⟩ := check_file_core_result hres
      have hcd : check_double_categories seen = false := by
        cases hcd : check_double_categories seen
        · rfl
        · exfalso
          have hmem : ("" : String) ∈ seen := by
            rw [← List.count_pos_iff]
            omega
          have := (check_double_categories_iff seen).mp hcd "" hmem
          omega
      rw [hcd] at hv
      simpa using hv

/-- Claim C9 witness: the theorem applied to a two-blank-line seen sequence, a
colon-free line, and a concrete run of check_file_core on the valid header with
two blank-line categories appended. -/
theorem claim_C9_witness :
    check_double_categories ["", ""] = false ∧
    catOf "no colon" = pyStrip "no colon" ∧
    (false : Bool) = false := by
  refine ⟨claim_C9.2.2.2.1 ["", ""] (by decide), claim_C9.2.2.1 "no colon" (by decide), ?_⟩
  exact claim_C9.2.2.2.2 (Option.some hdV) (seenV ++ ["", ""]) false (by decide) (by decide)

/-- Claim C2 (confirmed): a field present in the header data is checked (its
checker result ANDed in) exactly when it is required or its value is truthy;
an absent required field contributes false; an absent optional field, or a
present-but-falsy optional field, contributes true (skipped); and the
per-field phase is the AND over all HANDLERS entries, feeding the overall
result. -/
theorem claim_C2 :
    (∀ hd cat req chk msg (v : Value), List.lookup cat hd = Option.some v →
      (req || truthy v) = true → field_check hd (cat, req, chk, msg) = chk v) ∧
    (∀ hd cat req chk msg (v : Value), List.lookup cat hd = Option.some v →
      (req || truthy v) = false → field_check hd (cat, req, chk, msg) = .ok true) ∧
    (∀ hd cat chk msg, List.lookup cat hd = Option.none →
      field_check hd (cat, true, chk, msg) = .ok false) ∧
    (∀ hd cat chk msg, List.lookup cat hd = Option.none →
      field_check hd (cat, false, chk, msg) = .ok true) ∧
    (∀ hd, checkFields hd = .ok true ↔ ∀ e ∈ HANDLERS, field_check hd e = .ok true) ∧
    (∀ hd seen v, check_file_core (Option.some hd) seen = Outcome.result v → v = true →
      checkFields hd = .ok true) := by
  refine ⟨?_, ?_, ?_, ?_, ?_, ?_⟩
  · intro hd cat req chk msg v hl hc
    simp [field_check, hl, hc, check_validity]
  · intro hd cat req chk msg v hl hc
    simp [field_check, hl, hc]
  · intro hd cat chk msg hl
    simp [field_check, hl]
  · intro hd cat chk msg hl
    simp [field_check, hl]
  · intro hd
    unfold checkFields
    rw [check_fields_from_ok_true hd HANDLERS true]
    simp
  · intro hd seen v hres htrue
    obtain ⟨f, hf, hv⟩ := check_file_core_result hres
    subst htrue
    have := hv.symm
    rw [Bool.and_eq_true, Bool.and_eq_true, Bool.and_eq_true] at this
    rw [hf, this.1.1.1]

/-- Claim C2 witness: the four contribution cases and the end-to-end AND,
each applied at concrete inputs. -/
theorem claim_C2_witness :
    field_check hdV ("layout", true, check_layout, "m") = check_layout (Value.str "workshop") ∧
    field_check [("venue", Value.str "")] ("venue", false, check_pass, "m") = .ok true ∧
    field_check [] ("contact", true, check_email, "m") = .ok false ∧
    field_check [] ("venue", false, check_pass, "m") = .ok true ∧
    checkFields hdV = .ok true :=
  ⟨claim_C2.1 hdV "layout" true check_layout "m" (Value.str "workshop") rfl rfl,
   claim_C2.2.1 [("venue", Value.str "")] "venue" false check_pass "m" (Value.str "") rfl rfl,
   claim_C2.2.2.1 [] "contact" check_email "m" rfl,
   claim_C2.2.2.2.1 [] "venue" check_pass "m" rfl,
   claim_C2.2.2.2.2.2 hdV seenV true (by decide) rfl⟩

/-- Claim C3 (confirmed): the structural phase contributes true exactly when no
seen name repeats, every required name was seen, and every seen name belongs
to the schema; and a returned overall validity of true entails all three. -/
theorem claim_C3 :
    (∀ seen : List String,
      ((check_double_categories seen && check_categories REQUIRED seen)
        && check_categories seen (REQUIRED ++ OPTIONAL)) = true ↔
      ((∀ c ∈ seen, seen.count c ≤ 1) ∧ (∀ c ∈ REQUIRED, c ∈ seen) ∧
        (∀ c ∈ seen, c ∈ REQUIRED ++ OPTIONAL))) ∧
    (∀ hd seen v, check_file_core (Option.some hd) seen = Outcome.result v → v = true →
      ((∀ c ∈ seen, seen.count c ≤ 1) ∧ (∀ c ∈ REQUIRED, c ∈ seen) ∧
        (∀ c ∈ seen, c ∈ REQUIRED ++ OPTIONAL))) := by
  constructor
  · intro seen
    rw [Bool.and_eq_true, Bool.and_eq_true, check_double_categories_iff,
      check_categories_iff, check_categories_iff]
    tauto
  · intro hd seen v hres htrue
    obtain ⟨f, _, hv⟩ := check_file_core_result hres
    subst htrue
    have h := hv.symm
    rw [Bool.and_eq_true, Bool.and_eq_true, Bool.and_eq_true] at h
    exact ⟨(check_double_categories_iff seen).mp h.1.1.2,
      (check_categories_iff _ _).mp h.1.2,
      (check_categories_iff _ _).mp h.2⟩

/-- Claim C3 witness: the structural phase evaluates to true on the concrete
valid seen sequence, via the characterization. -/
theorem claim_C3_witness :
    ((check_double_categories seenV && check_categories REQUIRED seenV)
      && check_categories seenV (REQUIRED ++ OPTIONAL)) = true :=
  (claim_C3.1 seenV).mpr ⟨by decide, by decide, by decide⟩

theorem humandateStr_eval {cs a b : List Char} (hcon : cs.contains ',' = true)
    (hab : splitOnChar ',' cs = [a, b]) :
    humandateStr cs =
      (if (a.take 3).any (fun c => c = ' ') then Except.ok false
       else
         match a.get? 3 with
         | Option.none => Except.error PyErr.indexError
         | Option.some c4 => if !(c4 = ' ') then Except.ok false else Except.ok (pyIntOk b)) := by
  unfold humandateStr
  rw [hcon, hab]
  rfl

/-- Claim C6 (corrected): the checkers are not total on all decodable values.
Amended form: on strings check_latitude_longitude always returns a boolean,
and check_humandate returns a boolean on comma-free strings and on strings
whose comma-split has exactly two parts with a month segment of length at
least four; but check_humandate raises ValueError on a string with two commas
and IndexError on a short month segment, and check_latitude_longitude and
check_humantime raise AttributeError on non-string values such as null. -/
theorem claim_C6 :
    (∀ s : String, (check_latitude_longitude (Value.str s)).isOk = true) ∧
    (∀ s : String, ',' ∉ s.data → check_humandate (Value.str s) = .ok false) ∧
    (∀ s : String, (splitOnChar ',' s.data).length = 2 →
      4 ≤ ((splitOnChar ',' s.data).headD []).length →
      (check_humandate (Value.str s)).isOk = true) ∧
    (check_humandate (Value.str "a,b,c") = .error PyErr.valueError) ∧
    (check_humandate (Value.str "Feb,2014") = .error PyErr.indexError) ∧
    (check_latitude_longitude Value.none = .error PyErr.attributeError) ∧
    (check_humantime Value.none = .error PyErr.attributeError) := by
  refine ⟨?_, ?_, ?_, rfl, rfl, rfl, rfl⟩
  · intro s
    simp only [check_latitude_longitude, look_for_fixme]
    by_cases h : starts_fixme s = true
    · rw [if_pos h]; rfl
    · rw [if_neg h]
      rcases hsp : splitOnChar ',' s.data with _ | ⟨a, _ | ⟨b, _ | ⟨c, t⟩⟩⟩ <;> simp [hsp, Except.isOk, Except.toBool]
  · intro s h
    have hcon : s.data.contains ',' = false := by
      cases hc : s.data.contains ','
      · rfl
      · exact absurd (List.elem_iff.mp hc) h
    simp only [check_humandate, look_for_fixme]
    by_cases hf : starts_fixme s = true
    · rw [if_pos hf]
    · rw [if_neg hf]
      simp only [humandateStr, hcon, Bool.not_false, if_true]
  · intro s h2 h4
    simp only [check_humandate, look_for_fixme]
    by_cases hf : starts_fixme s = true
    · rw [if_pos hf]; rfl
    · rw [if_neg hf]
      have hmem : ',' ∈ s.data := splitOnChar_length_two_mem h2
      have hcon : s.data.contains ',' = true := List.elem_iff.mpr hmem
      obtain ⟨a, b, hab⟩ : ∃ a b, splitOnChar ',' s.data = [a, b] := by
        rcases hsp : splitOnChar ',' s.data with _ | ⟨a, _ | ⟨b, _ | ⟨c, t⟩⟩⟩ <;>
          rw [hsp] at h2 <;> simp at h2
        exact ⟨a, b, rfl⟩
      rw [hab] at h4
      simp only [List.headD] at h4
      rw [humandateStr_eval hcon hab]
      by_cases hsp3 : (a.take 3).any (fun c => c = ' ') = true
      · rw [if_pos hsp3]; rfl
      · rw [if_neg hsp3]
        obtain ⟨c4, hc4⟩ : ∃ x, a.get? 3 = Option.some x := by
          cases hg : a.get? 3
          · rw [List.get?_eq_none] at hg; omega
          · exact ⟨_, rfl⟩
        rw [hc4]
        by_cases hc4s : c4 = ' '
        · simp [hc4s, Except.isOk, Except.toBool]
        · simp [hc4s, Except.isOk, Except.toBool]

/-- Claim C6 counterexample: check_humandate raises an uncaught ValueError on
the two-comma string "a,b,c", and check_latitude_longitude raises an uncaught
AttributeError on null, so the checkers are not total boolean functions on
all decoder-producible values. -/
theorem claim_C6_counterexample :
    check_humandate (Value.str "a,b,c") = .error PyErr.valueError ∧
    check_latitude_longitude Value.none = .error PyErr.attributeError := ⟨rfl, rfl⟩

/-- Claim C6 witness: the amended totality statements applied at concrete
strings. -/
theorem claim_C6_witness :
    (check_latitude_longitude (Value.str "12.5")).isOk = true ∧
    check_humandate (Value.str "Feb 18-20") = .ok false ∧
    (check_humandate (Value.str "Feb 18, 2014")).isOk = true :=
  ⟨claim_C6.1 "12.5", claim_C6.2.1 "Feb 18-20" (by decide),
   claim_C6.2.2.1 "Feb 18, 2014" (by decide) (by decide)⟩

theorem splitOnChar_ne_nil (sep : Char) : ∀ cs : List Char, splitOnChar sep cs ≠ [] := by
  intro cs
  induction cs with
  | nil => simp [splitOnChar]
  | cons c cs ih =>
    rw [splitOnChar]
    by_cases h : c = sep
    · rw [if_pos h]; simp
    · rw [if_neg h]
      match hsp : splitOnChar sep cs with
      | [] => simp
      | h2 :: t => simp

theorem splitOnChar_mem_length {sep : Char} : ∀ {cs : List Char},
    sep ∈ cs → 2 ≤ (splitOnChar sep cs).length := by
  intro cs
  induction cs with
  | nil => intro h; cases h
  | cons c cs ih =>
    intro h
    rw [splitOnChar]
    by_cases hcs : c = sep
    · rw [if_pos hcs]
      have := splitOnChar_ne_nil sep cs
      match hsp : splitOnChar sep cs with
      | [] => exact absurd hsp this
      | a :: t => simp
    · rw [if_neg hcs]
      have hm : sep ∈ cs := by
        rcases List.mem_cons.mp h with h1 | h1
        · exact absurd h1.symm hcs
        · exact h1
      have h2 := ih hm
      match hsp : splitOnChar sep cs with
      | [] => exact absurd hsp (splitOnChar_ne_nil sep cs)
      | a :: t =>
        rw [hsp] at h2
        simpa using h2

/-- Claim C7 (corrected): the stated acceptance condition characterizes
check_humandate only for strings that do not left-strip to a FIXME prefix;
the decorator fires first, so a FIXME string satisfying all the stated
conditions (possible with tab whitespace) is still rejected.  Amended form:
for every non-FIXME string, check_humandate returns true exactly when the
string contains one comma, splitting there gives a month segment whose first
three characters are all non-space and whose fourth character is a space, and
a year segment accepted by int(); the three concrete examples stand. -/
theorem claim_C7 :
    (∀ s : String, ¬starts_fixme s = true →
      (check_humandate (Value.str s) = .ok true ↔
        (',' ∈ s.data ∧ (splitOnChar ',' s.data).length = 2 ∧
          ¬(((splitOnChar ',' s.data).headD []).take 3).any (fun c => c = ' ') = true ∧
          ((splitOnChar ',' s.data).headD []).get? 3 = Option.some ' ' ∧
          pyIntOk ((splitOnChar ',' s.data).getD 1 []) = true))) ∧
    check_humandate (Value.str "Feb 18-20, 2525") = .ok true ∧
    check_humandate (Value.str "February 18, 2014") = .ok false ∧
    check_humandate (Value.str "Feb 18-20") = .ok false := by
  refine ⟨?_, rfl, rfl, rfl⟩
  intro s hf
  simp only [check_humandate, look_for_fixme]
  rw [if_neg hf]
  cases hc : s.data.contains ','
  · have hmem : ',' ∉ s.data := by
      intro hm
      have h2 : s.data.contains ',' = true := List.elem_iff.mpr hm
      rw [hc] at h2
      cases h2
    constructor
    · intro h
      exfalso
      unfold humandateStr at h
      rw [hc] at h
      simp at h
    · intro h
      exact absurd h.1 hmem
  · have hmem : ',' ∈ s.data := List.elem_iff.mp hc
    have hlen := splitOnChar_mem_length hmem
    rcases hsp : splitOnChar ',' s.data with _ | ⟨a, _ | ⟨b, _ | ⟨d, t⟩⟩⟩
    · exact absurd hsp (splitOnChar_ne_nil ',' s.data)
    · rw [hsp] at hlen; simp at hlen
    · rw [humandateStr_eval hc hsp]
      simp only [hsp, List.headD, List.getD, List.get?]
      by_cases h3 : (a.take 3).any (fun c => c = ' ') = true
      · rw [if_pos h3]
        constructor
        · intro h; cases h
        · intro h
          exact absurd h3 h.2.2.1
      · rw [if_neg h3]
        cases hg : a.get? 3 with
        | none =>
          have hred : (match (Option.none : Option Char) with
              | Option.none => Except.error PyErr.indexError
              | Option.some c4 => if !(c4 = ' ') then Except.ok false else Except.ok (pyIntOk b))
              = (Except.error PyErr.indexError : CheckResult) := rfl
          rw [hred]
          constructor
          · intro h; cases h
          · intro h
            exact absurd h.2.2.2.1 (by simp)
        | some c4 =>
          have hred : (match Option.some c4 with
              | Option.none => Except.error PyErr.indexError
              | Option.some c4 => if !(c4 = ' ') then Except.ok false else Except.ok (pyIntOk b))
              = (if !(c4 = ' ') then Except.ok false else Except.ok (pyIntOk b)) := rfl
          rw [hred]
          by_cases hc4 : c4 = ' '
          · subst hc4
            rw [if_neg (by simp)]
            constructor
            · intro h
              refine ⟨hmem, rfl, h3, rfl, ?_⟩
              simpa using h
            · intro h
              have hb : pyIntOk b = true := by simpa using h.2.2.2.2
              rw [hb]
          · rw [if_pos (by simp [hc4])]
            constructor
            · intro h; cases h
            · intro h
              have := h.2.2.2.1
              rw [Option.some.injEq] at this
              exact absurd this hc4
    · constructor
      · intro h
        exfalso
        unfold humandateStr at h
        rw [hc, hsp] at h
        simp at h
      · intro h
        simp at h

/-- Claim C7 counterexample: the string with tab whitespace before FIXME
satisfies every acceptance condition stated by the claim (one comma; first
three month characters are tabs, hence non-space; fourth character is a
space; year parses as an integer), yet check_humandate rejects it because
the FIXME decorator fires first. -/
theorem claim_C7_counterexample :
    check_humandate (Value.str "\t\t\t FIXME, 2014") = .ok false ∧
    (',' ∈ "\t\t\t FIXME, 2014".data ∧
      (splitOnChar ',' "\t\t\t FIXME, 2014".data).length = 2 ∧
      ¬(((splitOnChar ',' "\t\t\t FIXME, 2014".data).headD []).take 3).any (fun c => c = ' ') = true ∧
      ((splitOnChar ',' "\t\t\t FIXME, 2014".data).headD []).get? 3 = Option.some ' ' ∧
      pyIntOk ((splitOnChar ',' "\t\t\t FIXME, 2014".data).getD 1 []) = true) := by
  exact ⟨rfl, by decide⟩

/-- Claim C7 witness: the amended characterization applied at a concrete
accepted string. -/
theorem claim_C7_witness :
    check_humandate (Value.str "Mar 1-2, 2020") = .ok true :=
  (claim_C7.1 "Mar 1-2, 2020" (by decide)).mpr (by decide)

theorem ht24_hour12_ampm {m1 m2 c : Char} {cs : List Char}
    (hm1 : '0' ≤ m1 ∧ m1 ≤ '5') (hm2 : m2.isDigit = true) (hc : c = 'a' ∨ c = 'p') :
    ht24 ('1' :: '2' :: ':' :: m1 :: m2 :: c :: cs) = [] := by
  obtain ⟨hm1a, hm1b⟩ := hm1
  rcases hc with rfl | rfl <;>
    simp [ht24, reSeq, reHr24, reAlt, re0d, reCh, reDigit, reRange, reMin, reToDash,
      hm1a, hm1b, hm2]

theorem htMatch_hour12_ampm {m1 m2 c : Char} {cs : List Char}
    (hm1 : '0' ≤ m1 ∧ m1 ≤ '5') (hm2 : m2.isDigit = true) (hc : c = 'a' ∨ c = 'p') :
    htMatch ('1' :: '2' :: ':' :: m1 :: m2 :: c :: cs) = false := by
  have h12 : ht12 ('1' :: '2' :: ':' :: m1 :: m2 :: c :: cs) = [] := rfl
  unfold htMatch
  rw [h12, ht24_hour12_ampm hm1 hm2 hc]
  rfl

/-- Claim C10 (confirmed): the 12-hour alternative of HUMANTIME_PATTERN only
admits hours 0 through 11, so a range whose first time is hour 12 with an
am/pm marker matches neither branch (the 24-hour branch accepts "12:MM" but
then requires "-" or "to", not "am"/"pm"); concretely "12:00pm-1:30pm" is
rejected while "1:30pm-4:00pm" is accepted. -/
theorem claim_C10 :
    (∀ (s : String) (m1 m2 c : Char) (cs : List Char),
      removeSpaces s.data = '1' :: '2' :: ':' :: m1 :: m2 :: c :: cs →
      ('0' ≤ m1 ∧ m1 ≤ '5') → m2.isDigit = true → (c = 'a' ∨ c = 'p') →
      check_humantime (Value.str s) = .ok false) ∧
    check_humantime (Value.str "12:00pm-1:30pm") = .ok false ∧
    check_humantime (Value.str "1:30pm-4:00pm") = .ok true := by
  refine ⟨?_, rfl, rfl⟩
  intro s m1 m2 c cs hrm hm1 hm2 hc
  simp only [check_humantime, look_for_fixme]
  by_cases hf : starts_fixme s = true
  · rw [if_pos hf]
  · rw [if_neg hf, hrm, htMatch_hour12_ampm hm1 hm2 hc]

/-- Claim C10 witness: the general statement applied at the concrete string
"12:30pm-1:30pm". -/
theorem claim_C10_witness :
    check_humantime (Value.str "12:30pm-1:30pm") = .ok false :=
  claim_C10.1 "12:30pm-1:30pm" '3' '0' 'p' "m-1:30pm".data rfl (by decide) (by decide)
    (Or.inr rfl)

/-- Claim C8 witness: the amended equation applied at a concrete coerced
value. -/
theorem claim_C8_witness :
    check_eventbrite (Value.str "123456789extra")
      = .ok (ebMatch (pyStr (Value.str "123456789extra")).data) :=
  claim_C8.1 (Value.str "123456789extra")
